import Mathlib

/-
Verification of the task validation, dependency-aware execution,
failure-recovery and checkpoint engine of `coding-agent.py`
(class SuperAIAgent).

Modelling conventions:
* Python dicts are insertion-ordered association lists (`dictGet`,
  `dictSet`, `dictContains` mirror `d[k]`, assignment, and `k in d`).
* The engine's persisted attributes form `AgentState`; the filesystem the
  engine touches is `World`; ambient effects (subprocess return codes,
  `shutil.which`, `datetime.now`, `sys.executable`, the MD5 digest
  function) are read-only fields of `Env`.  MD5 is modelled as an opaque
  pure function `Env.md5`.
* A raised-and-uncaught Python exception is `none` (for `validate_task`)
  or the `ExecOutcome.raised` constructor (for `execute_tasks`); the
  caught exceptions inside `execute_task` are an `Option String` carrying
  the fault message.
* External effects are recorded in an `Event` trace so that theorems can
  state that no file write / subprocess / task attempt happened.
* The planning oracle is a queue of responses (`List (List Task)`);
  `send_to_api` pops one, an exhausted queue models a transport/parse
  failure, which the source maps to an empty task list.  The context
  digest built by `get_context_summary` for each request is not modelled:
  its only state effect (refreshing fingerprints while summarising files)
  iterates a Python `set`, whose order is nondeterministic, and none of
  the verified control flow reads it.
-/

namespace CodingAgent

/-- Key type of the Python `task_results` dict: indices are `int` while the
engine runs, but become JSON strings after a save/load round trip. -/
abbrev TKey := Int ⊕ String

section Dict

variable {α β : Type} [DecidableEq α]

/-- `d.get(k)` on a Python dict modelled as an assoc list. -/
def dictGet (d : List (α × β)) (k : α) : Option β :=
  (d.find? (fun kv => decide (kv.1 = k))).map (fun kv => kv.2)

/-- `k in d` on a Python dict. -/
def dictContains (d : List (α × β)) (k : α) : Bool :=
  (dictGet d k).isSome

/-- `d[k] = v` on a Python dict: replace in place or append. -/
def dictSet (d : List (α × β)) (k : α) (v : β) : List (α × β) :=
  if dictContains d k then
    d.map (fun kv => if kv.1 = k then (k, v) else kv)
  else d ++ [(k, v)]

end Dict

/-- One oracle task: the dynamic dict with the optional fields the agent
reads, as a record of options (absent key = `none`). -/
structure Task where
  action : Option String := none
  path : Option String := none
  content : Option String := none
  feature : Option String := none
  depends_on : List Int := []
  tool : Option String := none
  fix : Bool := false
  package : Option String := none
  version : Option String := none
  name : Option String := none
  language : Option String := none
  message : Option String := none
  branch : Option String := none
  remote : Option String := none
deriving DecidableEq

/-- A `task_history` entry as appended by `execute_task`. -/
structure HistEntry where
  task : Task
  index : Int
  action : Option String
  success : Bool
  error : Option String
  api_model : Option String
  timestamp : String
deriving DecidableEq

/-- The persisted attributes of `SuperAIAgent` (the fields written by
`save_state`; the API credentials and file-name constants are never
persisted and play no role in the verified logic). -/
structure AgentState where
  project_root : Option String
  language : String
  venv_path : Option String
  task_results : List (TKey × Bool)
  created_files : List String
  installed_deps : List String
  linting_results : List String
  test_results : List String
  features : List String
  task_history : List HistEntry
  file_hashes : List (String × String)
  current_iteration : Int
  command : Option String
  api_model : Option String
deriving DecidableEq

/-- The state of a fresh `SuperAIAgent.__init__`. -/
def s_init : AgentState :=
  { project_root := none
    language := "python"
    venv_path := none
    task_results := []
    created_files := []
    installed_deps := []
    linting_results := []
    test_results := []
    features := []
    task_history := []
    file_hashes := []
    current_iteration := 0
    command := none
    api_model := none }

/-- Filesystem model: file contents plus created directories. -/
structure World where
  files : List (String × String)
  dirs : List String
deriving DecidableEq

def w0 : World := { files := [], dirs := [] }

/-- Ambient effects: subprocess runner `(cmd, cwd) -> (rc, stdout, stderr)`,
`shutil.which`, the MD5 digest, `datetime.now().isoformat()` and
`sys.executable`. -/
structure Env where
  run : List String → Option String → Int × String × String
  which : String → Bool
  md5 : String → String
  now : String
  sysExecutable : String

/-- Observable external effects, plus `attempt`, which marks the moment
`execute_task` passes the dependency check and dispatches a task. -/
inductive Event where
  | fileWrite (path content : String)
  | fileDelete (path : String)
  | fileRead (path : String)
  | mkdir (path : String)
  | venvCreate (path : String)
  | subprocess (cmd : List String)
  | apiCall (failedTask : Option Task) (retry : Bool)
  | attempt (index : Int) (task : Task)
deriving DecidableEq

def isAttempt : Event → Bool
  | .attempt _ _ => true
  | _ => false

/-- `self.supported_actions`. -/
def supported_actions : List String :=
  ["create_directory", "create_venv", "set_language", "create_file",
   "modify_file", "delete_file", "install_dependency", "init_git",
   "git_commit", "git_branch", "git_push", "run_script", "create_test",
   "run_test", "generate_docs", "run_lint"]

/-- `self.supported_linters`. -/
def supported_linters : List (String × String) :=
  [("python", "flake8"), ("nodejs", "eslint")]

def actionSupported : Option String → Bool
  | some a => supported_actions.contains a
  | none => false

/-- Python truthiness of `self.project_root` (None or empty string is falsy). -/
def rootTruthy (s : AgentState) : Bool :=
  match s.project_root with
  | some r => decide (r ≠ "")
  | none => false

/-- Python truthiness of an optional path string. -/
def pathTruthy : Option String → Bool
  | some p => decide (p ≠ "")
  | none => false

/-- Characterwise prefix test. -/
def isPrefixL : List Char → List Char → Bool
  | [], _ => true
  | _ :: _, [] => false
  | a :: as, b :: bs => a = b && isPrefixL as bs

/-- Characterwise suffix test. -/
def isSuffixL (sub l : List Char) : Bool := isPrefixL sub.reverse l.reverse

/-- Occurrence of `sub` as a contiguous substring (Python `sub in text`). -/
def containsSub (sub : List Char) : List Char → Bool
  | [] => isPrefixL sub []
  | c :: t => isPrefixL sub (c :: t) || containsSub sub t

/-- POSIX `Path.is_absolute()`. -/
def isAbs (p : String) : Bool :=
  match p.data with
  | c :: _ => c = '/'
  | [] => false

/-- One character of the class re-searched by the validator:
`[<>:"|?*\x00-\x1F]`. -/
def illegalChar (c : Char) : Bool :=
  c = '<' || c = '>' || c = ':' || c = '"' || c = '|' || c = '?' || c = '*' ||
    c.toNat < 32

def hasIllegal (p : String) : Bool := p.data.any illegalChar

/-- Python `str(x)` for an optional string (f-string rendering of None). -/
def pyStr : Option String → String
  | some x => x
  | none => "None"

/-- `get_venv_python` on a non-Windows platform. -/
def get_venv_python (env : Env) (s : AgentState) : String :=
  match s.venv_path with
  | some v => v ++ "/bin/python"
  | none => env.sysExecutable

/-- Substring test (`marker in text` in Python). -/
def strContains (text marker : String) : Bool :=
  containsSub marker.data text.data

/-- The tail of `validate_task`: the `depends_on` bounds check, the
feature-redundancy check and the `modify_file` no-op (fingerprint) check,
in source order.  `none` models the unguarded `open(path)` raising on a
missing file. -/
def validate_tail (env : Env) (w : World) (s : AgentState) (task : Task)
    (tasks : List Task) : Option Bool × List Event :=
  if task.depends_on.any (fun dep => dep ≥ (tasks.length : Int) || dep < 0) then
    (some false, [])
  else if (match task.feature with
           | some ft => s.features.contains ft
           | none => false)
          && (task.action == some ("create_file")
              || task.action == some ("install_dependency")) then
    (some false, [])
  else if task.action == some ("modify_file") then
    match task.path with
    | some p =>
      if dictContains s.file_hashes p then
        match dictGet w.files p with
        | none => (none, [Event.fileRead p])
        | some content =>
          if some (env.md5 content) = dictGet s.file_hashes p then
            (some false, [Event.fileRead p])
          else (some true, [Event.fileRead p])
      else (some true, [])
    | none => (some true, [])
  else (some true, [])

/-- `install_linter`: build the install command (flake8 via pip into the
venv, otherwise the eslint npm command — the looked-up linter is always
one of the two) and run it; returns the exit code and the subprocess
event. -/
def install_linter (env : Env) (s : AgentState) (t : String) :
    Int × List Event :=
  let cmd :=
    if t = "flake8" then
      [get_venv_python env s, "-m", "pip", "install", "flake8", "autopep8"]
    else ["npm", "install", "-g", "eslint"]
  ((env.run cmd none).1, [Event.subprocess cmd])

/-- The `run_lint` stage of `validate_task`, including the on-demand
`install_linter` attempt (whose failure is caught and returns False).
`tool = expected = None` reaches `shutil.which(None)`, a TypeError
(`none`). -/
def validate_lint (env : Env) (w : World) (s : AgentState) (task : Task)
    (tasks : List Task) : Option Bool × List Event :=
  if task.action == some ("run_lint") then
    if task.tool ≠ dictGet supported_linters s.language then (some false, [])
    else
      match task.tool with
      | none => (none, [])
      | some t =>
        if env.which t then validate_tail env w s task tasks
        else
          let inst := install_linter env s t
          if inst.1 = 0 then
            let tl := validate_tail env w s task tasks
            (tl.1, inst.2 ++ tl.2)
          else (some false, inst.2)
  else validate_tail env w s task tasks

/-- `validate_task`.  `none` models an uncaught exception: when the
project root is truthy and the path is absolute, the source evaluates
`Path(path).resolve().startswith(...)` — `Path` objects have no
`startswith`, so this raises AttributeError regardless of where the
absolute path points. -/
def validate_task (env : Env) (w : World) (s : AgentState) (task : Task)
    (task_index : Int) (tasks : List Task) : Option Bool × List Event :=
  if !(actionSupported task.action) then (some false, [])
  else if pathTruthy task.path && rootTruthy s
          && isAbs ((task.path).getD ("")) then
    (none, [])
  else if pathTruthy task.path && hasIllegal ((task.path).getD ("")) then
    (some false, [])
  else validate_lint env w s task tasks

/-- `check_dependencies`: every listed index must be `< len(tasks)` and
have a truthy recorded result (the source checks `dep >= len(tasks)`,
`dep not in self.task_results`, `not self.task_results[dep]` in turn;
negative indices are only caught if they are unrecorded). -/
def check_dependencies (task_results : List (TKey × Bool)) (task : Task)
    (tasks : List Task) : Bool :=
  task.depends_on.all (fun dep =>
    if dep ≥ (tasks.length : Int) then false
    else
      match dictGet task_results (.inl dep) with
      | some b => b
      | none => false)

/-- Split a character list at a separator. -/
def splitChar (sep : Char) : List Char → List (List Char)
  | [] => [[]]
  | c :: rest =>
    let r := splitChar sep rest
    if c = sep then [] :: r
    else
      match r with
      | [] => [[c]]
      | h :: t => (c :: h) :: t

def joinSlash : List (List Char) → List Char
  | [] => []
  | [x] => x
  | x :: xs => x ++ '/' :: joinSlash xs

/-- Python `Path(p).parent` (for `Path(path).parent.mkdir(...)`). -/
def parentDir (p : String) : String :=
  match splitChar ('/') p.data with
  | [] => "."
  | [_] => "."
  | parts => String.mk (joinSlash parts.dropLast)

def fileExists (w : World) (p : String) : Bool :=
  (dictGet w.files p).isSome

/-- `Path(p).exists()`: a file or a created directory. -/
def pathExistsW (w : World) (p : String) : Bool :=
  fileExists w p || w.dirs.contains p

def addDir (w : World) (p : String) : World :=
  if w.dirs.contains p then w else { w with dirs := w.dirs ++ [p] }

def writeFile (w : World) (p c : String) : World :=
  { w with files := dictSet w.files p c }

/-- `if feature not in self.features: self.features.append(feature)`. -/
def addFeature (s : AgentState) (ft : String) : AgentState :=
  if s.features.contains ft then s
  else { s with features := s.features ++ [ft] }

/-- The `try:` body of `execute_task`: dispatch by action kind.  Returns
the mutated state/world, the external-effect events, and `some msg` when
the body raised (the caught exception's message); mutations performed
before the raise are preserved, as in the source.  Subprocess outcomes
come from `Env.run`; plain file writes and directory creation are
modelled as succeeding. -/
def dispatch_action (env : Env) (w : World) (s : AgentState) (task : Task) :
    AgentState × World × List Event × Option String :=
  let feature := (task.feature).getD ("unknown")
  match task.action with
  | some a =>
    if a = "create_directory" then
      match task.path with
      | none => (s, w, [], some ("TypeError: path is None"))
      | some p =>
        let s1 := if !(rootTruthy s) then { s with project_root := some p }
                  else s
        (s1, addDir w p, [Event.mkdir p], none)
    else if a = "create_venv" then
      match task.path with
      | none => (s, w, [], some ("KeyError: path"))
      | some p =>
        let vp := p ++ "/" ++ ((task.name).getD (".venv"))
        ({ s with venv_path := some vp }, addDir w vp,
         [Event.venvCreate vp], none)
    else if a = "set_language" then
      ({ s with language := (task.language).getD ("python") }, w, [], none)
    else if a = "create_file" || a = "create_test" || a = "generate_docs" then
      match task.path with
      | none => (s, w, [], some ("TypeError: path is None"))
      | some p =>
        let content := (task.content).getD ("")
        let s1 := { s with created_files := s.created_files ++ [p] }
        (addFeature s1 feature, writeFile (addDir w (parentDir p)) p content,
         [Event.mkdir (parentDir p), Event.fileWrite p content], none)
    else if a = "modify_file" then
      match task.path with
      | none => (s, w, [], some ("TypeError: path is None"))
      | some p =>
        let content := (task.content).getD ("")
        let s1 := { s with created_files := s.created_files ++ [p] }
        (addFeature s1 feature, writeFile w p content,
         [Event.fileWrite p content], none)
    else if a = "delete_file" then
      match task.path with
      | none => (s, w, [], some ("TypeError: path is None"))
      | some p =>
        if fileExists w p then
          ({ s with created_files := s.created_files.filter (fun f => f ≠ p) },
           { w with files := w.files.filter (fun kv => kv.1 ≠ p) },
           [Event.fileDelete p], none)
        else if w.dirs.contains p then
          (s, w, [], some ("IsADirectoryError"))
        else (s, w, [], none)
    else if a = "install_dependency" then
      if s.language = "python" then
        let base := [get_venv_python env s, "-m", "pip", "install"]
        match task.version with
        | some v =>
          let cmd := base ++ [pyStr task.package ++ "==" ++ v]
          let r := env.run cmd s.project_root
          if r.1 = 0 then
            ({ s with installed_deps :=
                s.installed_deps ++ [pyStr task.package ++ "==" ++ v] },
             w, [Event.subprocess cmd], none)
          else
            (s, w, [Event.subprocess cmd],
             some ("Failed to install " ++ pyStr task.package ++ ": " ++ r.2.2))
        | none =>
          match task.package with
          | none => (s, w, [], some ("TypeError: argument is None"))
          | some pkg =>
            let cmd := base ++ [pkg]
            let r := env.run cmd s.project_root
            if r.1 = 0 then
              ({ s with installed_deps := s.installed_deps ++ [pkg] },
               w, [Event.subprocess cmd], none)
            else
              (s, w, [Event.subprocess cmd],
               some ("Failed to install " ++ pkg ++ ": " ++ r.2.2))
      else if s.language = "nodejs" then
        let spec := match task.version with
          | some v => pyStr task.package ++ "@" ++ v
          | none => pyStr task.package
        let cmd := ["npm", "install", spec]
        let r := env.run cmd s.project_root
        if r.1 = 0 then
          ({ s with installed_deps :=
              s.installed_deps ++
                [pyStr task.package ++
                  (match task.version with
                   | some v => "==" ++ v
                   | none => "")] },
           w, [Event.subprocess cmd], none)
        else
          (s, w, [Event.subprocess cmd],
           some ("Failed to install " ++ pyStr task.package ++ ": " ++ r.2.2))
      else
        (s, w, [],
         some ("Unsupported language for dependency: " ++ s.language))
    else if a = "init_git" then
      match task.path with
      | none => (s, w, [], some ("TypeError: path is None"))
      | some p =>
        let w1 := if pathExistsW w p then w else addDir w p
        let r := env.run ["git", "init"] (some p)
        if r.1 = 0 then (s, w1, [Event.subprocess ["git", "init"]], none)
        else
          (s, w1, [Event.subprocess ["git", "init"]],
           some ("Git init failed: " ++ r.2.2))
    else if a = "git_commit" then
      let msg := (task.message).getD ("Automated commit")
      let _ := env.run ["git", "add", "."] task.path
      let r := env.run ["git", "commit", "-m", msg] task.path
      if r.1 = 0 then
        (s, w, [Event.subprocess ["git", "add", "."],
                Event.subprocess ["git", "commit", "-m", msg]], none)
      else
        (s, w, [Event.subprocess ["git", "add", "."],
                Event.subprocess ["git", "commit", "-m", msg]],
         some ("Git commit failed: " ++ r.2.2))
    else if a = "git_branch" then
      match task.branch with
      | none => (s, w, [], some ("TypeError: argument is None"))
      | some b =>
        let r := env.run ["git", "checkout", "-b", b] task.path
        if r.1 = 0 then
          (s, w, [Event.subprocess ["git", "checkout", "-b", b]], none)
        else
          (s, w, [Event.subprocess ["git", "checkout", "-b", b]],
           some ("Git branch failed: " ++ r.2.2))
    else if a = "git_push" then
      match task.remote, task.branch with
      | some rm, some b =>
        let r := env.run ["git", "push", rm, b] task.path
        if r.1 = 0 then
          (s, w, [Event.subprocess ["git", "push", rm, b]], none)
        else
          (s, w, [Event.subprocess ["git", "push", rm, b]],
           some ("Git push failed: " ++ r.2.2))
      | _, _ => (s, w, [], some ("TypeError: argument is None"))
    else if a = "run_script" then
      if s.language = "python" then
        match task.path with
        | none => (s, w, [], some ("TypeError: argument is None"))
        | some p =>
          let cmd := [get_venv_python env s, p]
          let r := env.run cmd s.project_root
          if r.1 = 0 then (s, w, [Event.subprocess cmd], none)
          else
            (s, w, [Event.subprocess cmd],
             some ("Script " ++ p ++ " failed: " ++ r.2.2))
      else if s.language = "nodejs" then
        match task.path with
        | none => (s, w, [], some ("TypeError: argument is None"))
        | some p =>
          let cmd := ["node", p]
          let r := env.run cmd s.project_root
          if r.1 = 0 then (s, w, [Event.subprocess cmd], none)
          else
            (s, w, [Event.subprocess cmd],
             some ("Script " ++ p ++ " failed: " ++ r.2.2))
      else
        (s, w, [], some ("Unsupported language for script: " ++ s.language))
    else if a = "run_test" then
      if s.language = "python" || s.language = "nodejs" then
        match task.path with
        | none => (s, w, [], some ("TypeError: argument is None"))
        | some p =>
          let cmd := if s.language = "python" then
              [get_venv_python env s, "-m", "pytest", p]
            else ["npm", "test", "--", p]
          let r := env.run cmd s.project_root
          let s1 := { s with test_results :=
              s.test_results ++
                ["Tests for " ++ p ++ ": " ++
                  (if r.1 = 0 then "Passed" else "Failed") ++ "\n" ++ r.2.1] }
          if r.1 = 0 then (s1, w, [Event.subprocess cmd], none)
          else
            (s1, w, [Event.subprocess cmd],
             some ("Tests failed for " ++ p ++ ": " ++ r.2.2))
      else
        (s, w, [], some ("Unsupported language for test: " ++ s.language))
    else if a = "run_lint" then
      let lint0 := "Linting " ++ pyStr task.path ++ " with " ++
        pyStr task.tool ++ ": "
      if task.tool == some ("flake8") && s.language = "python" then
        match task.path with
        | none => (s, w, [], some ("TypeError: argument is None"))
        | some p =>
          let fixStep : String × List Event :=
            if task.fix then
              let cmdf := [get_venv_python env s, "-m", "autopep8",
                           "--in-place", p]
              let rf := env.run cmdf s.project_root
              (lint0 ++
                 (if rf.1 = 0 then "Fixed issues with autopep8. "
                  else "Autopep8 failed: " ++ rf.2.2 ++ ". "),
               [Event.subprocess cmdf])
            else (lint0, [])
          let cmd := [get_venv_python env s, "-m", "flake8", p]
          let r := env.run cmd s.project_root
          let lr := fixStep.1 ++
            (if r.1 = 0 then "Passed" else "Issues found: " ++ r.2.1)
          (addFeature
             { s with linting_results := s.linting_results ++ [lr] } feature,
           w, fixStep.2 ++ [Event.subprocess cmd], none)
      else if task.tool == some ("eslint") && s.language = "nodejs" then
        match task.path with
        | none => (s, w, [], some ("TypeError: argument is None"))
        | some p =>
          let cmd := ["eslint", p] ++ (if task.fix then ["--fix"] else [])
          let r := env.run cmd s.project_root
          let lr := lint0 ++
            (if r.1 = 0 then "Passed" else "Issues found: " ++ r.2.1)
          (addFeature
             { s with linting_results := s.linting_results ++ [lr] } feature,
           w, [Event.subprocess cmd], none)
      else
        (s, w, [],
         some ("Unsupported linter " ++ pyStr task.tool ++ " for language " ++
           s.language))
    else (s, w, [], none)
  | none => (s, w, [], none)

/-- The failure bookkeeping of `execute_task`'s `except` arm. -/
def record_failure (sd : AgentState) (t : Task) (i : Int) (err : String)
    (now : String) : AgentState :=
  { sd with
    task_history := sd.task_history ++
      [{ task := t, index := i, action := t.action, success := false,
         error := some err, api_model := sd.api_model, timestamp := now }]
    task_results := dictSet sd.task_results (.inl i) false }

/-- The success bookkeeping at the end of `execute_task`'s `try` body. -/
def record_success (sd : AgentState) (t : Task) (i : Int) (now : String) :
    AgentState :=
  { sd with
    task_history := sd.task_history ++
      [{ task := t, index := i, action := t.action, success := true,
         error := none, api_model := sd.api_model, timestamp := now }]
    task_results := dictSet sd.task_results (.inl i) true }

/-- `execute_task`: dependency re-check (skip-and-record-false on
failure, with no history entry and no external action), then the wrapped
dispatch. -/
def execute_task (env : Env) (w : World) (s : AgentState) (task : Task)
    (task_index : Int) (tasks : List Task) :
    AgentState × World × Bool × List Event :=
  if !(check_dependencies s.task_results task tasks) then
    ({ s with task_results := dictSet s.task_results (.inl task_index) false },
     w, false, [])
  else
    let d := dispatch_action env w s task
    match d.2.2.2 with
    | none =>
      (record_success d.1 task task_index env.now, d.2.1, true,
       Event.attempt task_index task :: d.2.2.1)
    | some err =>
      (record_failure d.1 task task_index err env.now, d.2.1, false,
       Event.attempt task_index task :: d.2.2.1)

/-- The oracle transport: one queued response is consumed per request; an
exhausted queue models a transport or parse failure, which `send_to_api`
maps to `{"tasks": []}`. -/
def send_to_api : List (List Task) → List Task × List (List Task)
  | [] => ([], [])
  | r :: rest => (r, rest)

/-- The validation loop at the head of `execute_tasks`: every task is
validated (no short-circuit), accumulating the `valid_tasks` flag; a
raise inside `validate_task` aborts the loop and propagates
(`(none, events so far)`). -/
def validate_batch (env : Env) (w : World) (s : AgentState) :
    List Task → Nat → List Task → Bool → Option Bool × List Event
  | [], _, _, acc => (some acc, [])
  | t :: rest, i, tasks, acc =>
    match validate_task env w s t (Int.ofNat i) tasks with
    | (none, evs) => (none, evs)
    | (some b, evs) =>
      let tl := validate_batch env w s rest (i + 1) tasks (acc && b)
      (tl.1, evs ++ tl.2)

/-- Outcome of a batch run: `.ok` carries the state, world, remaining
oracle queue and the boolean return of `execute_tasks`; `.raised` models
an exception propagating out (e.g. from `validate_task`). -/
inductive ExecOutcome where
  | ok (s : AgentState) (w : World) (oracle : List (List Task)) (ret : Bool)
  | raised (s : AgentState) (w : World)
deriving DecidableEq

/-- The execution loop of `execute_tasks`: tasks in batch order; on a
task failure, a recovery batch is requested and (when non-empty) run
recursively through the caller-supplied pipeline `recurse`, its boolean
result discarded; the loop then proceeds with the next task.  A raise
inside the recursive run propagates and abandons the loop. -/
def exec_loop (env : Env)
    (recurse : List (List Task) → World → AgentState → List Task →
      Option (ExecOutcome × List Event)) :
    List Task → Nat → List Task → List (List Task) → World → AgentState →
      Option (ExecOutcome × List Event)
  | [], _, _, oracle, w, s => some (.ok s w oracle true, [])
  | t :: rest, i, tasks, oracle, w, s =>
    let e := execute_task env w s t (Int.ofNat i) tasks
    if e.2.2.1 then
      match exec_loop env recurse rest (i + 1) tasks oracle e.2.1 e.1 with
      | none => none
      | some (o, evs2) => some (o, e.2.2.2 ++ evs2)
    else
      let api := send_to_api oracle
      if api.1.isEmpty then
        match exec_loop env recurse rest (i + 1) tasks api.2 e.2.1 e.1 with
        | none => none
        | some (o, evs2) =>
          some (o, e.2.2.2 ++ Event.apiCall (some t) false :: evs2)
      else
        match recurse api.2 e.2.1 e.1 api.1 with
        | none => none
        | some (.raised s2 w2, evI) =>
          some (.raised s2 w2, e.2.2.2 ++ Event.apiCall (some t) false :: evI)
        | some (.ok s2 w2 oracle2 _, evI) =>
          match exec_loop env recurse rest (i + 1) tasks oracle2 w2 s2 with
          | none => none
          | some (o, evs2) =>
            some (o, e.2.2.2 ++ Event.apiCall (some t) false :: (evI ++ evs2))

/-- `execute_tasks`: validate the whole batch; any invalid task discards
the batch and re-plans (empty corrective batch fails the iteration,
otherwise the corrective batch is run through the same pipeline);
otherwise execute in order with per-task recovery.  `fuel` bounds the
recursion depth (the source recurses on the Python stack); `none` means
the bound was hit. -/
def execute_tasks (env : Env) :
    Nat → List (List Task) → World → AgentState → List Task →
      Option (ExecOutcome × List Event)
  | 0, _, _, _, _ => none
  | fuel + 1, oracle, w, s, tasks =>
    match validate_batch env w s tasks 0 tasks true with
    | (none, evs) => some (.raised s w, evs)
    | (some true, evs) =>
      match exec_loop env (execute_tasks env fuel) tasks 0 tasks oracle w s with
      | none => none
      | some (o, evs2) => some (o, evs ++ evs2)
    | (some false, evs) =>
      let api := send_to_api oracle
      if api.1.isEmpty then
        some (.ok s w api.2 false, evs ++ [Event.apiCall none true])
      else
        match execute_tasks env fuel api.2 w s api.1 with
        | none => none
        | some (o, evs2) => some (o, evs ++ Event.apiCall none true :: evs2)

/-- `json.load`'s object construction from a serialized key/value
sequence: pairs are inserted with Python-dict semantics, so a later
duplicate key overwrites the value while keeping the first occurrence's
position.  (`json.dump` happily emits duplicate JSON keys when an int
key and its string rendering coexist in the dict being saved.) -/
def jsonLoadObj {β : Type} (l : List (String × β)) : List (String × β) :=
  l.foldl (fun acc kv => dictSet acc kv.1 kv.2) []

/-- The JSON state document written by `save_state`.  `json.dump` turns
every dict key into a string (so `task_results` keys are strings here
even though the in-memory keys are ints) and serializes the entries in
insertion order, duplicates included; the collapse of duplicate keys
happens on the parse side (`jsonLoadObj`). -/
structure SavedFile where
  project_root : Option String
  language : String
  venv_path : Option String
  task_results : List (String × Bool)
  created_files : List String
  installed_deps : List String
  linting_results : List String
  test_results : List String
  features : List String
  task_history : List HistEntry
  file_hashes : List (String × String)
  current_iteration : Int
  command : Option String
  api_model : Option String
  last_updated : String
deriving DecidableEq

/-- JSON rendering of a dict key (ints print in decimal). -/
def tkeyStr : TKey → String
  | .inl i => toString i
  | .inr str => str

/-- `save_state` ∘ `json.dump`: the persisted fields, with dict keys
stringified.  `venv_path` is a `Path` in memory, always truthy, so it is
written as-is (`str(...)`); the model keeps it a plain string. -/
def save_state (now : String) (s : AgentState) : SavedFile :=
  { project_root := s.project_root
    language := s.language
    venv_path := s.venv_path
    task_results := s.task_results.map (fun kv => (tkeyStr kv.1, kv.2))
    created_files := s.created_files
    installed_deps := s.installed_deps
    linting_results := s.linting_results
    test_results := s.test_results
    features := s.features
    task_history := s.task_history
    file_hashes := s.file_hashes
    current_iteration := s.current_iteration
    command := s.command
    api_model := s.api_model
    last_updated := now }

/-- The field assignments of `load_state` (every persisted field is
written onto the engine before any check runs).  The JSON objects are
rebuilt by `jsonLoadObj` (duplicate keys collapse, last value wins at
the first occurrence's position); `venv_path` goes through
`Path(v) if state.get("venv_path") else None`, so an empty string is
collapsed to `None` by truthiness. -/
def loadFields (f : SavedFile) : AgentState :=
  { project_root := f.project_root
    language := f.language
    venv_path := match f.venv_path with
      | some v => if v = "" then none else some v
      | none => none
    task_results :=
      (jsonLoadObj f.task_results).map (fun kv => (.inr kv.1, kv.2))
    created_files := f.created_files
    installed_deps := f.installed_deps
    linting_results := f.linting_results
    test_results := f.test_results
    features := f.features
    task_history := f.task_history
    file_hashes := jsonLoadObj f.file_hashes
    current_iteration := f.current_iteration
    command := f.command
    api_model := f.api_model }

/-- `load_state`: absent file returns False with the engine untouched;
otherwise all fields are assigned, then the recorded project root (when
truthy) must still exist on disk or the load returns False — with the
assignments left in place. -/
def load_state (file : Option SavedFile) (rootExists : String → Bool)
    (e : AgentState) : AgentState × Bool :=
  match file with
  | none => (e, false)
  | some f =>
    let e1 := loadFields f
    match e1.project_root with
    | some r => if r ≠ "" && !(rootExists r) then (e1, false) else (e1, true)
    | none => (e1, true)

/-- `CompletenessReport`. -/
structure Report where
  score : Int
  issues : List String
  is_complete : Bool
  missing_features : List String
deriving DecidableEq

/-- The fixed production-feature catalog of the assessor. -/
def production_features : List String :=
  ["authentication", "database", "logging", "docker", "ci_cd"]

/-- `Path(root).glob(pattern)` for the two non-recursive patterns the
assessor uses: entries directly under `root` whose name satisfies
`pred`. -/
def globDirect (w : World) (root : String) (pred : List Char → Bool) :
    List String :=
  (w.files.map (fun kv => kv.1) ++ w.dirs).filter (fun p =>
    if isPrefixL (root.data ++ ['/']) p.data then
      let nm := p.data.drop (root.data.length + 1)
      !(nm.contains ('/')) && pred nm
    else false)

def srcExt (s : AgentState) : String :=
  if s.language = "python" then ".py" else ".js"

def main_files (w : World) (s : AgentState) : List String :=
  if rootTruthy s then
    globDirect w ((s.project_root).getD (""))
      (fun nm => isSuffixL (srcExt s).data nm)
  else []

def test_files (w : World) (s : AgentState) : List String :=
  if rootTruthy s then
    globDirect w ((s.project_root).getD (""))
      (fun nm => isPrefixL ("test_").data nm && isSuffixL (srcExt s).data nm)
  else []

/-- `assess_project_completeness`, translated check by check in source
order (score increments and issue appends interleaved). -/
def assess_project_completeness (w : World) (s : AgentState) : Report :=
  let mf := main_files w s
  let sc1 : Int := if !mf.isEmpty then 20 else 0
  let is1 : List String := if !mf.isEmpty then [] else ["No main script found"]
  let tf := test_files w s
  let sc2 := if !tf.isEmpty then sc1 + 20 else sc1
  let is2 := if !tf.isEmpty then is1 else is1 ++ ["No test files found"]
  let passing_tests :=
    s.test_results.countP (fun r => strContains r ("Passed"))
  let sc3 := if passing_tests > 0 then sc2 + 20 else sc2
  let is3 := if passing_tests > 0 then is2
    else if !tf.isEmpty then is2 ++ ["Tests are failing"] else is2
  let linting_passed := s.linting_results.all (fun r =>
    strContains r ("Passed") || strContains r ("Fixed"))
  let sc4 := if linting_passed then sc3 + 20 else sc3
  let is4 := if linting_passed then is3 else is3 ++ ["Linting issues detected"]
  let implemented := s.features.filter (fun f => production_features.contains f)
  let sc5 := sc4 + (implemented.length : Int) * 4
  let missing :=
    production_features.filter (fun f => !implemented.contains f)
  let is5 := if !missing.isEmpty then
      is4 ++ ["Missing production features: " ++
        String.intercalate (", ") missing]
    else is4
  { score := sc5
    issues := is5
    is_complete := decide (sc5 ≥ 80) && is5.isEmpty
    missing_features := missing }

/-- The scoring rubric as the specification words it: the sum of +20 for
an existing main source file, +20 for an existing test file, +20 when
some recorded test result carries a "Passed" marker, +20 when every
recorded lint result carries a "Passed" or "Fixed" marker, and +4 per
implemented feature drawn from the fixed five-element catalog. -/
def specScore (w : World) (s : AgentState) : Int :=
  (if !(main_files w s).isEmpty then 20 else 0) +
  (if !(test_files w s).isEmpty then 20 else 0) +
  (if s.test_results.any (fun r => strContains r ("Passed")) then 20 else 0) +
  (if s.linting_results.all (fun r =>
      strContains r ("Passed") || strContains r ("Fixed")) then 20 else 0) +
  4 * ((s.features.filter (fun f => production_features.contains f)).length : Int)

/-! Concrete fixtures used by witnesses and counterexamples. -/

/-- A benign environment: every subprocess succeeds, every tool is
installed, MD5 is the identity fingerprint. -/
def envC : Env :=
  { run := fun _ _ => (0, "", "")
    which := fun _ => true
    md5 := fun c => c
    now := "2025-01-01T00:00:00"
    sysExecutable := "/usr/bin/python3" }

/-- An environment in which every subprocess exits nonzero. -/
def envF : Env := { envC with run := fun _ _ => (1, "out", "err") }

def tLang : Task :=
  { action := some ("set_language"), language := some ("python") }

def tDep : Task :=
  { action := some ("set_language"), depends_on := [0] }

def tBad : Task := { action := some ("bogus") }

def tEscape : Task :=
  { action := some ("create_file"), path := some ("../../etc/passwd"),
    content := some ("x") }

def tAbsDep : Task :=
  { action := some ("create_file"), path := some ("/etc/x"),
    depends_on := [5] }

def tFail : Task :=
  { action := some ("run_script"), path := some ("x.py") }

def tMod : Task :=
  { action := some ("modify_file"), path := some ("a.py"),
    content := some ("y") }

def sRoot : AgentState := { s_init with project_root := some ("my_app") }

def sStale : AgentState := { s_init with task_results := [(.inl 0, true)] }

def sFp : AgentState := { s_init with file_hashes := [("a.py", "h1")] }

def sW : AgentState :=
  { s_init with task_results := [(.inl 0, true)], current_iteration := 3 }

def tBadDep : Task :=
  { action := some ("set_language"), depends_on := [5] }

/-- A saved state file recording a project root that no longer exists. -/
def fC10 : SavedFile :=
  save_state ("t0") { sRoot with created_files := ["my_app/app.py"] }

/-- Trace extraction from a run result. -/
def trOf (r : Option (ExecOutcome × List Event)) : List Event :=
  match r with
  | some (_, tr) => tr
  | none => []

/-- Whether a run result is a propagating exception. -/
def isRaised : Option (ExecOutcome × List Event) → Bool
  | some (.raised _ _, _) => true
  | _ => false

/-- The engine state after executing the two-task batch `[tLang, tLang]`
from a fresh engine. -/
def sA : AgentState :=
  match execute_tasks envC 1 [] w0 s_init [tLang, tLang] with
  | some (.ok s _ _ _, _) => s
  | _ => s_init

/-! Helper lemmas. -/

/-- No `attempt` marker occurs in an event list (used to state that
validation never dispatches a task). -/
def noAttempts (l : List Event) : Bool := l.all (fun e => !isAttempt e)

theorem validate_tail_no_attempt (env : Env) (w : World) (s : AgentState)
    (t : Task) (tasks : List Task) :
    noAttempts (validate_tail env w s t tasks).2 = true := by
  unfold validate_tail
  rcases hp : t.path with _ | p
  · split_ifs <;> rfl
  · dsimp only
    rcases hg : dictGet w.files p with _ | c <;> dsimp only <;> split_ifs <;>
      rfl

theorem validate_lint_no_attempt (env : Env) (w : World) (s : AgentState)
    (t : Task) (tasks : List Task) :
    noAttempts (validate_lint env w s t tasks).2 = true := by
  have ht := validate_tail_no_attempt env w s t tasks
  have hinst : ∀ tl, noAttempts (install_linter env s tl).2 = true := by
    intro tl
    unfold install_linter
    dsimp only
    split_ifs <;> rfl
  unfold validate_lint
  dsimp only
  rcases htool : t.tool with _ | tl <;> dsimp only <;> split_ifs <;>
    first
    | rfl
    | exact ht
    | (simp only [noAttempts, List.all_append] at ht ⊢
       exact Bool.and_eq_true.mpr ⟨by simpa [noAttempts] using hinst tl, ht⟩)
    | exact hinst tl

theorem validate_task_no_attempt (env : Env) (w : World) (s : AgentState)
    (t : Task) (ti : Int) (tasks : List Task) :
    noAttempts (validate_task env w s t ti tasks).2 = true := by
  have hl := validate_lint_no_attempt env w s t tasks
  unfold validate_task
  split_ifs <;> first | rfl | exact hl

theorem validate_batch_no_attempt (env : Env) (w : World) (s : AgentState) :
    ∀ (l : List Task) (i : Nat) (tasks : List Task) (acc : Bool),
      noAttempts (validate_batch env w s l i tasks acc).2 = true := by
  intro l
  induction l with
  | nil => intro i tasks acc; rfl
  | cons t rest ih =>
    intro i tasks acc
    have hv := validate_task_no_attempt env w s t (Int.ofNat i) tasks
    unfold validate_batch
    split
    · rename_i evs hvt
      rw [hvt] at hv
      exact hv
    · rename_i b evs hvt
      rw [hvt] at hv
      have hr := ih (i + 1) tasks (acc && b)
      simp only [noAttempts, List.all_append] at hv hr ⊢
      simp [hv, hr]

theorem check_dependencies_false (res : List (TKey × Bool)) (t : Task)
    (tasks : List Task)
    (h : ∃ d ∈ t.depends_on, dictGet res (.inl d) ≠ some true) :
    check_dependencies res t tasks = false := by
  rcases h with ⟨d, hd, hne⟩
  apply Bool.eq_false_iff.mpr
  intro hall
  have hx := List.all_eq_true.mp hall d hd
  split at hx
  · simp at hx
  · rcases hg : dictGet res (.inl d) with _ | b
    · rw [hg] at hx; simp at hx
    · rw [hg] at hx
      cases b
      · simp at hx
      · exact hne (by rw [hg])

theorem check_dependencies_true (res : List (TKey × Bool)) (t : Task)
    (tasks : List Task)
    (h : ∀ d ∈ t.depends_on,
      d < (tasks.length : Int) ∧ dictGet res (.inl d) = some true) :
    check_dependencies res t tasks = true := by
  apply List.all_eq_true.mpr
  intro d hd
  obtain ⟨hlt, hget⟩ := h d hd
  rw [if_neg (by omega), hget]

theorem execute_task_checked (env : Env) (w : World) (s : AgentState)
    (t : Task) (i : Int) (tasks : List Task)
    (hc : check_dependencies s.task_results t tasks = true) :
    execute_task env w s t i tasks =
      match (dispatch_action env w s t).2.2.2 with
      | none =>
        (record_success (dispatch_action env w s t).1 t i env.now,
         (dispatch_action env w s t).2.1, true,
         Event.attempt i t :: (dispatch_action env w s t).2.2.1)
      | some err =>
        (record_failure (dispatch_action env w s t).1 t i err env.now,
         (dispatch_action env w s t).2.1, false,
         Event.attempt i t :: (dispatch_action env w s t).2.2.1) := by
  unfold execute_task
  rw [hc]
  rfl

theorem execute_task_attempt (env : Env) (w : World) (s : AgentState)
    (t : Task) (i : Int) (tasks : List Task)
    (hc : check_dependencies s.task_results t tasks = true) :
    ∃ s' w' b evs,
      execute_task env w s t i tasks = (s', w', b, Event.attempt i t :: evs) := by
  rcases hD : (dispatch_action env w s t).2.2.2 with _ | err <;>
    rw [execute_task_checked env w s t i tasks hc, hD] <;>
    exact ⟨_, _, _, _, rfl⟩

theorem exec_loop_attempt_mem (env : Env)
    (recurse : List (List Task) → World → AgentState → List Task →
      Option (ExecOutcome × List Event))
    (t : Task) (rest : List Task) (i : Nat) (tasks : List Task)
    (oracle : List (List Task)) (w : World) (s : AgentState)
    (o : ExecOutcome) (tr : List Event)
    (hc : check_dependencies s.task_results t tasks = true)
    (h : exec_loop env recurse (t :: rest) i tasks oracle w s = some (o, tr)) :
    Event.attempt (Int.ofNat i) t ∈ tr := by
  obtain ⟨s', w', b, evs, he⟩ :=
    execute_task_attempt env w s t (Int.ofNat i) tasks hc
  unfold exec_loop at h
  rw [he] at h
  dsimp only at h
  repeat' split at h
  all_goals
    first
    | exact Option.noConfusion h
    | (cases h; simp)

/-- One-step equation of `execute_tasks` at positive fuel. -/
theorem execute_tasks_succ (env : Env) (f : Nat) (oracle : List (List Task))
    (w : World) (s : AgentState) (tasks : List Task) :
    execute_tasks env (f + 1) oracle w s tasks =
      match validate_batch env w s tasks 0 tasks true with
      | (none, evs) => some (.raised s w, evs)
      | (some true, evs) =>
        match exec_loop env (execute_tasks env f) tasks 0 tasks oracle w s with
        | none => none
        | some (o, evs2) => some (o, evs ++ evs2)
      | (some false, evs) =>
        let api := send_to_api oracle
        if api.1.isEmpty then
          some (.ok s w api.2 false, evs ++ [Event.apiCall none true])
        else
          match execute_tasks env f api.2 w s api.1 with
          | none => none
          | some (o, evs2) =>
            some (o, evs ++ Event.apiCall none true :: evs2) := rfl

/-- One-step equation of `exec_loop` on a non-empty task list. -/
theorem exec_loop_cons (env : Env)
    (recurse : List (List Task) → World → AgentState → List Task →
      Option (ExecOutcome × List Event))
    (t : Task) (rest : List Task) (i : Nat) (tasks : List Task)
    (oracle : List (List Task)) (w : World) (s : AgentState) :
    exec_loop env recurse (t :: rest) i tasks oracle w s =
      (let e := execute_task env w s t (Int.ofNat i) tasks
       if e.2.2.1 then
         match exec_loop env recurse rest (i + 1) tasks oracle e.2.1 e.1 with
         | none => none
         | some (o, evs2) => some (o, e.2.2.2 ++ evs2)
       else
         let api := send_to_api oracle
         if api.1.isEmpty then
           match exec_loop env recurse rest (i + 1) tasks api.2 e.2.1 e.1 with
           | none => none
           | some (o, evs2) =>
             some (o, e.2.2.2 ++ Event.apiCall (some t) false :: evs2)
         else
           match recurse api.2 e.2.1 e.1 api.1 with
           | none => none
           | some (.raised s2 w2, evI) =>
             some (.raised s2 w2,
               e.2.2.2 ++ Event.apiCall (some t) false :: evI)
           | some (.ok s2 w2 oracle2 _, evI) =>
             match exec_loop env recurse rest (i + 1) tasks oracle2 w2 s2 with
             | none => none
             | some (o, evs2) =>
               some (o, e.2.2.2 ++
                 Event.apiCall (some t) false :: (evI ++ evs2))) := rfl

/-! Claim theorems. -/

/-- C3: for every task in a batch, if any index listed in its
`depends_on` has a recorded result of false, or no recorded result at
all, in the engine's task-result mapping, then `execute_task` records
false for that task's index and returns false without invoking any
external action (empty event trace: no file write, no subprocess, not
even a dispatch attempt) and without touching any other state. -/
theorem C3_dependency_short_circuit (env : Env) (w : World) (s : AgentState)
    (task : Task) (ti : Int) (tasks : List Task)
    (h : ∃ d ∈ task.depends_on, dictGet s.task_results (.inl d) ≠ some true) :
    execute_task env w s task ti tasks =
      ({ s with task_results := dictSet s.task_results (.inl ti) false },
       w, false, []) := by
  have hc := check_dependencies_false s.task_results task tasks h
  unfold execute_task
  rw [hc]
  rfl

/-- Witness for C3: a task depending on index 0 before any result is
recorded is skipped, marked false, and produces no events. -/
theorem C3_witness :
    ((0 : Int) ∈ tDep.depends_on ∧
      dictGet s_init.task_results (.inl 0) ≠ some true) ∧
    execute_task envC w0 s_init tDep 0 [tDep] =
      ({ s_init with
          task_results := dictSet s_init.task_results (.inl 0) false },
       w0, false, []) :=
  ⟨⟨by decide, by decide⟩,
   C3_dependency_short_circuit envC w0 s_init tDep 0 [tDep]
     ⟨0, by decide, by decide⟩⟩

/-- C9: `validate_task` runs the no-op detection for a `modify_file`
task only when the task's path has a fingerprint on record: without one
the task is accepted with no file read (empty event trace); with one the
file on disk is opened unguarded, so the call returns a boolean exactly
when the file exists (comparing its digest with the record) and raises
(`none`) when it does not. -/
theorem C9_fingerprint_guard (env : Env) (w : World) (s : AgentState)
    (task : Task) (ti : Int) (tasks : List Task) (p : String)
    (hA : task.action = some ("modify_file"))
    (hP : task.path = some p)
    (h1 : (rootTruthy s && isAbs p) = false)
    (h2 : hasIllegal p = false)
    (h3 : (task.depends_on.any
      (fun dep => dep ≥ (tasks.length : Int) || dep < 0)) = false) :
    (dictGet s.file_hashes p = none →
       validate_task env w s task ti tasks = (some true, [])) ∧
    (∀ hsh, dictGet s.file_hashes p = some hsh →
       dictGet w.files p = none →
       validate_task env w s task ti tasks = (none, [Event.fileRead p])) ∧
    (∀ hsh c, dictGet s.file_hashes p = some hsh →
       dictGet w.files p = some c → env.md5 c = hsh →
       validate_task env w s task ti tasks = (some false, [Event.fileRead p])) ∧
    (∀ hsh c, dictGet s.file_hashes p = some hsh →
       dictGet w.files p = some c → env.md5 c ≠ hsh →
       validate_task env w s task ti tasks = (some true, [Event.fileRead p])) := by
  have hAS : actionSupported (some ("modify_file")) = true := by decide
  have hrl : (some ("modify_file") == some ("run_lint")) = false := by decide
  have hcf : ((some ("modify_file") == some ("create_file"))
      || (some ("modify_file") == some ("install_dependency"))) = false := by
    decide
  have hmf : (some ("modify_file") == some ("modify_file")) = true := by decide
  refine ⟨?_, ?_, ?_, ?_⟩
  · intro hno
    simp [validate_task, validate_lint, validate_tail, hA, hP, hAS, hrl, hcf,
      hmf, h1, h2, h3, dictContains, hno, Bool.and_assoc]
  · intro hsh hfp hw
    simp [validate_task, validate_lint, validate_tail, hA, hP, hAS, hrl, hcf,
      hmf, h1, h2, h3, dictContains, hfp, hw, Bool.and_assoc]
  · intro hsh c hfp hw hmd
    simp [validate_task, validate_lint, validate_tail, hA, hP, hAS, hrl, hcf,
      hmf, h1, h2, h3, dictContains, hfp, hw, hmd, Bool.and_assoc]
  · intro hsh c hfp hw hmd
    simp [validate_task, validate_lint, validate_tail, hA, hP, hAS, hrl, hcf,
      hmf, h1, h2, h3, dictContains, hfp, hw, hmd, Bool.and_assoc]

/-- Witness for C9: with no fingerprint, the `modify_file` task `tMod`
is accepted with no read even though the file is absent; with a
fingerprint and the file absent, the call raises. -/
theorem C9_witness :
    validate_task envC w0 s_init tMod 0 [tMod] = (some true, []) ∧
    validate_task envC w0 sFp tMod 0 [tMod] =
      (none, [Event.fileRead ("a.py")]) := by
  have h1 := C9_fingerprint_guard envC w0 s_init tMod 0 [tMod] ("a.py")
    rfl rfl (by decide) (by decide) (by decide)
  have h2 := C9_fingerprint_guard envC w0 sFp tMod 0 [tMod] ("a.py")
    rfl rfl (by decide) (by decide) (by decide)
  exact ⟨h1.1 (by decide), h2.2.1 ("h1") (by decide) (by decide)⟩

/-- C7 counterexample: a task whose `depends_on` holds the out-of-bounds
index 5 but whose path is absolute while the project root is set makes
`validate_task` raise (the `Path.startswith` AttributeError) instead of
returning false, so the claim's unqualified "returns false" fails. -/
theorem C7_counterexample :
    (5 : Int) ∈ tAbsDep.depends_on ∧
    (([tAbsDep] : List Task).length : Int) ≤ 5 ∧
    (validate_task envC w0 sRoot tAbsDep 0 [tAbsDep]).1 = none ∧
    (validate_task envC w0 sRoot tAbsDep 0 [tAbsDep]).1 ≠ some false :=
  ⟨by decide, by decide, by decide, by decide⟩

/-- C7 (amended): whenever `validate_task` returns at all (it raises if
the project root is set and the task's path is absolute, and in a
degenerate `run_lint` corner), a task whose `depends_on` contains a
negative index or one at least the batch length is rejected: the call
returns false. -/
theorem C7_amended_bounds (env : Env) (w : World) (s : AgentState)
    (task : Task) (ti : Int) (tasks : List Task)
    (h1 : ∃ d ∈ task.depends_on, d < 0 ∨ (tasks.length : Int) ≤ d)
    (h2 : (validate_task env w s task ti tasks).1 ≠ none) :
    (validate_task env w s task ti tasks).1 = some false := by
  have hany : (task.depends_on.any
      (fun dep => dep ≥ (tasks.length : Int) || dep < 0)) = true := by
    rcases h1 with ⟨d, hd, hlt⟩
    refine List.any_eq_true.mpr ⟨d, hd, ?_⟩
    simp only [Bool.or_eq_true, decide_eq_true_eq]
    omega
  have htail : (validate_tail env w s task tasks).1 = some false := by
    simp [validate_tail, hany]
  revert h2
  unfold validate_task validate_lint
  dsimp only
  rcases htool : task.tool with _ | tl <;> dsimp only <;> split_ifs <;>
    intro h2 <;>
    first
    | rfl
    | exact absurd rfl h2
    | exact htail

/-- Witness for C7 (amended): a task listing dependency index 5 in a
one-task batch is rejected. -/
theorem C7_witness :
    ((5 : Int) ∈ tBadDep.depends_on ∧
      (([tBadDep] : List Task).length : Int) ≤ 5) ∧
    (validate_task envC w0 s_init tBadDep 0 [tBadDep]).1 = some false :=
  ⟨⟨by decide, by decide⟩,
   C7_amended_bounds envC w0 s_init tBadDep 0 [tBadDep]
     ⟨5, by decide, Or.inr (by decide)⟩ (by decide)⟩

/-- C10: `load_state` assigns every persisted field before checking that
the recorded project root still exists, so when it returns false for a
missing root the engine holds the file's values (`loadFields f`),
independent of the state it held before the call. -/
theorem C10_load_not_atomic (f : SavedFile) (ex : String → Bool)
    (e e2 : AgentState) (r : String)
    (h1 : f.project_root = some r) (h2 : r ≠ "") (h3 : ex r = false) :
    load_state (some f) ex e = (loadFields f, false) ∧
    load_state (some f) ex e2 = load_state (some f) ex e := by
  have hpr : (loadFields f).project_root = some r := by
    simp [loadFields, h1]
  constructor
  · simp [load_state, hpr, h2, h3]
  · simp [load_state, hpr, h2, h3]

/-- Witness for C10: loading a state file whose recorded root is gone
fails yet leaves the file's fields assigned. -/
theorem C10_witness :
    fC10.project_root = some ("my_app") ∧
    load_state (some fC10) (fun _ => false) s_init = (loadFields fC10, false) :=
  ⟨rfl,
   (C10_load_not_atomic fC10 (fun _ => false) s_init s_init ("my_app")
     rfl (by decide) rfl).1⟩

/-- C2: the path-traversal scenario the specification requires to be
rejected is in fact accepted: with the project root set, the task whose
path is `../../etc/passwd` passes `validate_task` (the escape check only
fires for absolute paths — and then crashes on `Path.startswith`), the
whole batch validates, no corrective batch is requested, and executing
the batch writes the file outside the root. -/
theorem C2_traversal_not_rejected :
    validate_task envC w0 sRoot tEscape 0 [tEscape] = (some true, []) ∧
    validate_batch envC w0 sRoot [tEscape] 0 [tEscape] true = (some true, []) ∧
    Event.fileWrite ("../../etc/passwd") ("x") ∈
      trOf (execute_tasks envC 1 [] w0 sRoot [tEscape]) ∧
    (∀ ft retry, Event.apiCall ft retry ∉
      trOf (execute_tasks envC 1 [] w0 sRoot [tEscape])) := by
  refine ⟨by decide, by decide, by decide, ?_⟩
  intro ft retry h
  have : trOf (execute_tasks envC 1 [] w0 sRoot [tEscape]) =
      [Event.attempt 0 tEscape, Event.mkdir ("../../etc"),
       Event.fileWrite ("../../etc/passwd") ("x")] := by decide
  rw [this] at h
  simp at h

/-- C8: the completeness score is exactly the sum of +20 for an existing
main source file, +20 for an existing test file, +20 when some recorded
test result carries a "Passed" marker, +20 when every recorded lint
result carries a "Passed" or "Fixed" marker, and +4 per implemented
feature drawn from the fixed five-element catalog; and `is_complete`
holds iff the score is at least 80 and the issues list is empty. -/
theorem C8_score_rubric (w : World) (s : AgentState) :
    (assess_project_completeness w s).score = specScore w s ∧
    ((assess_project_completeness w s).is_complete = true ↔
      (assess_project_completeness w s).score ≥ 80 ∧
      (assess_project_completeness w s).issues = []) := by
  have hpass : (0 < s.test_results.countP (fun r => strContains r ("Passed")))
      ↔ (s.test_results.any (fun r => strContains r ("Passed")) = true) := by
    rw [List.countP_pos, List.any_eq_true]
  constructor
  · unfold assess_project_completeness specScore
    dsimp only
    split_ifs <;> first | omega | (exfalso; omega) | skip
    all_goals simp_all [hpass]
    all_goals omega
  · unfold assess_project_completeness
    dsimp only
    simp [Bool.and_eq_true, decide_eq_true_eq, List.isEmpty_iff]

/-- C4 counterexample: after the two-task batch `[tLang, tLang]` runs
from a fresh engine, its recorded results stay in `task_results`; the
next batch `[tDep]` (whose single task lists dependency index 0, not yet
recorded in that batch) is attempted because the stale record from the
previous batch satisfies its dependency check, whereas with a
batch-scoped (empty) mapping the task is skipped. -/
theorem C4_counterexample :
    execute_tasks envC 1 [] w0 s_init [tLang, tLang] =
      some (.ok sA w0 [] true,
        [Event.attempt 0 tLang, Event.attempt 1 tLang]) ∧
    sA.task_results = [(.inl 0, true), (.inl 1, true)] ∧
    Event.attempt 0 tDep ∈ trOf (execute_tasks envC 1 [] w0 sA [tDep]) ∧
    Event.attempt 0 tDep ∉
      trOf (execute_tasks envC 1 [] w0 { sA with task_results := [] } [tDep]) :=
  ⟨by decide, by decide, by decide, by decide⟩

/-- C4 (amended): `execute_tasks` never clears the task-result mapping:
dependency checks consult the accumulated `task_results` of the entering
state, so a batch head whose listed dependencies are all mapped to true
there — however they were recorded, including by previously executed
batches — is dispatched. -/
theorem C4_stale_results_visible (env : Env) (f : Nat)
    (oracle : List (List Task)) (w : World) (s : AgentState)
    (t : Task) (rest : List Task) (vevs : List Event)
    (o : ExecOutcome) (tr : List Event)
    (hv : validate_batch env w s (t :: rest) 0 (t :: rest) true =
      (some true, vevs))
    (hd : ∀ d ∈ t.depends_on,
      d < ((t :: rest).length : Int) ∧
        dictGet s.task_results (.inl d) = some true)
    (hr : execute_tasks env (f + 1) oracle w s (t :: rest) = some (o, tr)) :
    Event.attempt 0 t ∈ tr := by
  have hc := check_dependencies_true s.task_results t (t :: rest) hd
  unfold execute_tasks at hr
  rw [hv] at hr
  dsimp only at hr
  rcases hl : exec_loop env (execute_tasks env f) (t :: rest) 0 (t :: rest)
      oracle w s with _ | ⟨o2, tr2⟩ <;> rw [hl] at hr
  · exact Option.noConfusion hr
  · have hmem := exec_loop_attempt_mem env (execute_tasks env f) t rest 0
      (t :: rest) oracle w s o2 tr2 hc hl
    cases hr
    exact List.mem_append.mpr (Or.inr hmem)

/-- Witness for C4 (amended): a one-task batch depending on index 0 is
attempted when the entering state already maps 0 to true. -/
theorem C4_stale_witness :
    validate_batch envC w0 sStale [tDep] 0 [tDep] true = (some true, []) ∧
    dictGet sStale.task_results (.inl 0) = some true ∧
    Event.attempt 0 tDep ∈ trOf (execute_tasks envC 1 [] w0 sStale [tDep]) := by
  refine ⟨by decide, by decide, ?_⟩
  rcases he : execute_tasks envC 1 [] w0 sStale [tDep] with _ | ⟨o, tr⟩
  · exact absurd he (by decide)
  · have hm := C4_stale_results_visible envC 0 [] w0 sStale tDep [] [] o tr
      (by decide)
      (by
        intro d hdm
        have : d = 0 := by simpa [tDep] using hdm
        subst this
        exact ⟨by decide, by decide⟩)
      he
    simp only [trOf, he]
    exact hm

/-- C5: a batch with any invalid task executes none of its tasks: the
validation pass dispatches nothing (no attempt events), a corrective
batch is requested, and either the corrective batch is empty — the call
returns false for the iteration, with still nothing executed — or the
corrective batch replaces the original through the same pipeline. -/
theorem C5_validation_failure (env : Env) (f : Nat)
    (oracle : List (List Task)) (w : World) (s : AgentState)
    (tasks : List Task) (vevs : List Event)
    (hv : validate_batch env w s tasks 0 tasks true = (some false, vevs)) :
    noAttempts vevs = true ∧
    ((send_to_api oracle).1 = [] →
      execute_tasks env (f + 1) oracle w s tasks =
        some (.ok s w (send_to_api oracle).2 false,
          vevs ++ [Event.apiCall none true])) ∧
    ((send_to_api oracle).1 ≠ [] →
      execute_tasks env (f + 1) oracle w s tasks =
        (match execute_tasks env f (send_to_api oracle).2 w s
            (send_to_api oracle).1 with
         | none => none
         | some (o, evs2) =>
           some (o, vevs ++ Event.apiCall none true :: evs2))) := by
  refine ⟨?_, ?_, ?_⟩
  · have hna := validate_batch_no_attempt env w s tasks 0 tasks true
    rw [hv] at hna
    exact hna
  · intro hemp
    have hie : (send_to_api oracle).1.isEmpty = true := by
      rw [hemp]; rfl
    unfold execute_tasks
    rw [hv]
    dsimp only
    rw [hie]
    rfl
  · intro hne
    have hie : (send_to_api oracle).1.isEmpty = false := by
      rcases hh : (send_to_api oracle).1 with _ | ⟨a, b⟩
      · exact absurd hh hne
      · rfl
    rw [execute_tasks_succ, hv]
    dsimp only
    rw [hie]
    rfl

/-- Witness for C5: the batch `[tBad]` (unsupported action) with an
exhausted oracle yields a false iteration with only the corrective
request in the trace and the state untouched. -/
theorem C5_witness :
    validate_batch envC w0 s_init [tBad] 0 [tBad] true = (some false, []) ∧
    execute_tasks envC 1 [] w0 s_init [tBad] =
      some (.ok s_init w0 [] false, [Event.apiCall none true]) := by
  refine ⟨by decide, ?_⟩
  exact (C5_validation_failure envC 0 [] w0 s_init [tBad] [] (by decide)).2.1 rfl

/-- C6 counterexample: a task failing in execution triggers a recovery
request, but when the returned recovery batch contains a task whose
validation raises (absolute path under a set root), the exception
propagates and the remaining original batch is abandoned: with recovery
batch `[tAbsDep]` the run ends raised and task 1 is never attempted,
while with an empty recovery it is attempted. -/
theorem C6_counterexample :
    (execute_task envF w0 sRoot tFail 0 [tFail, tLang]).2.2.1 = false ∧
    isRaised (execute_tasks envF 2 [[tAbsDep]] w0 sRoot [tFail, tLang]) = true ∧
    Event.attempt 1 tLang ∉
      trOf (execute_tasks envF 2 [[tAbsDep]] w0 sRoot [tFail, tLang]) ∧
    Event.attempt 1 tLang ∈
      trOf (execute_tasks envF 2 [] w0 sRoot [tFail, tLang]) :=
  ⟨by decide, by decide, by decide, by decide⟩

/-- C6 (amended): when a task raises during dispatch, `execute_task`
appends a failure history entry carrying the fault message, records
false for the index and returns false; `execute_tasks` then requests a
recovery batch and — when the recovery response is empty, or when the
recursive recovery run returns normally — proceeds with the next task of
the original batch (if the recovery run itself raises, the exception
propagates instead, per the counterexample). -/
theorem C6_execution_failure (env : Env) (f : Nat)
    (oracle : List (List Task)) (w : World) (s : AgentState)
    (t0 : Task) (rest : List Task) (vevs : List Event)
    (sd : AgentState) (wd : World) (devs : List Event) (err : String)
    (hv : validate_batch env w s (t0 :: rest) 0 (t0 :: rest) true =
      (some true, vevs))
    (hc : check_dependencies s.task_results t0 (t0 :: rest) = true)
    (hd : dispatch_action env w s t0 = (sd, wd, devs, some err)) :
    execute_task env w s t0 0 (t0 :: rest) =
      (record_failure sd t0 0 err env.now, wd, false,
       Event.attempt 0 t0 :: devs) ∧
    ((send_to_api oracle).1 = [] →
      execute_tasks env (f + 1) oracle w s (t0 :: rest) =
        (match exec_loop env (execute_tasks env f) rest 1 (t0 :: rest)
            (send_to_api oracle).2 wd (record_failure sd t0 0 err env.now) with
         | none => none
         | some (o, evs2) =>
           some (o, vevs ++ ((Event.attempt 0 t0 :: devs) ++
             Event.apiCall (some t0) false :: evs2)))) ∧
    (∀ s2 w2 o2 b evI, (send_to_api oracle).1 ≠ [] →
      execute_tasks env f (send_to_api oracle).2 wd
          (record_failure sd t0 0 err env.now) (send_to_api oracle).1 =
        some (.ok s2 w2 o2 b, evI) →
      execute_tasks env (f + 1) oracle w s (t0 :: rest) =
        (match exec_loop env (execute_tasks env f) rest 1 (t0 :: rest)
            o2 w2 s2 with
         | none => none
         | some (o, evs2) =>
           some (o, vevs ++ ((Event.attempt 0 t0 :: devs) ++
             Event.apiCall (some t0) false :: (evI ++ evs2))))) := by
  have hex : execute_task env w s t0 0 (t0 :: rest) =
      (record_failure sd t0 0 err env.now, wd, false,
       Event.attempt 0 t0 :: devs) := by
    rw [execute_task_checked env w s t0 0 (t0 :: rest) hc, hd]
  have hex2 : execute_task env w s t0 (Int.ofNat 0) (t0 :: rest) =
      (record_failure sd t0 0 err env.now, wd, false,
       Event.attempt 0 t0 :: devs) := hex
  refine ⟨hex, ?_, ?_⟩
  · intro hemp
    have hie : (send_to_api oracle).1.isEmpty = true := by
      rw [hemp]; rfl
    rw [execute_tasks_succ, hv]
    dsimp only
    rw [exec_loop_cons]
    dsimp only
    rw [hex2]
    dsimp only
    rw [hie]
    rcases hli : exec_loop env (execute_tasks env f) rest (0 + 1) (t0 :: rest)
        (send_to_api oracle).2 wd (record_failure sd t0 0 err env.now)
      with _ | ⟨o, evs2⟩ <;> rfl
  · intro s2 w2 o2 b evI hne hrec
    have hie : (send_to_api oracle).1.isEmpty = false := by
      rcases hh : (send_to_api oracle).1 with _ | ⟨a, bb⟩
      · exact absurd hh hne
      · rfl
    rw [execute_tasks_succ, hv]
    dsimp only
    rw [exec_loop_cons]
    dsimp only
    rw [hex2]
    dsimp only
    rw [hie, hrec]
    dsimp only
    rcases hli : exec_loop env (execute_tasks env f) rest (0 + 1) (t0 :: rest)
        o2 w2 s2 with _ | ⟨o, evs2⟩ <;> rfl

/-- Witness for C6 (amended): the failing `run_script` task records its
fault and result, and with an empty recovery the loop continues. -/
theorem C6_witness :
    dispatch_action envF w0 sRoot tFail =
      (sRoot, w0, [Event.subprocess ["/usr/bin/python3", "x.py"]],
       some ("Script x.py failed: err")) ∧
    execute_task envF w0 sRoot tFail 0 [tFail, tLang] =
      (record_failure sRoot tFail 0 ("Script x.py failed: err") envF.now, w0,
       false,
       Event.attempt 0 tFail :: [Event.subprocess ["/usr/bin/python3", "x.py"]]) := by
  refine ⟨by decide, ?_⟩
  exact (C6_execution_failure envF 0 [] w0 sRoot tFail [tLang] [] sRoot w0
    [Event.subprocess ["/usr/bin/python3", "x.py"]]
    ("Script x.py failed: err")
    (by decide) (by decide) (by decide)).1

end CodingAgent
